import Mathlib

/-!
Verification development for the Crestron NVX Manager sources.

The definitions below are shallow embeddings of the JavaScript/TypeScript
code of the repository:
* the JSON value model and JavaScript truthiness / optional-chaining helpers,
* the device-discovery dedupe (renderer DeviceDiscoveryService.deduplicateDevices),
* the vendor (Crestron) discovery response parser (main process,
  extractModelAndVersion / parseDeviceInfo),
* the import-parameters, identify-device and update-parameter IPC handlers
  of the Electron main process, modelled as pure functions of an abstract
  device/network behaviour, returning a result together with the list of
  wire calls they issue,
* the renderer DeviceConnectionService state machine.

Conventions: JavaScript Date values are modelled as Nat timestamps; JSON
numbers as Int; a thrown exception of a network call as the .error branch
of an Except carrying the error message; an absent response header as an
empty list / none.  Math.random-derived strings are passed in as explicit
parameters.  Set-Cookie entries are assumed to be well-formed name=value
pairs (the source would throw on a TRACKID cookie without an equals sign;
that corner is unreachable for real headers and is modelled totally here).
-/

/-- JSON-ish JavaScript value, as exchanged with the device. -/
inductive JValue where
  | null : JValue
  | bool : Bool → JValue
  | num : Int → JValue
  | str : String → JValue
  | obj : List (String × JValue) → JValue
  | arr : List JValue → JValue
  deriving Repr

/-- First-match lookup among the fields of a JS object. -/
def jlookup : List (String × JValue) → String → Option JValue
  | [], _ => none
  | (k', v) :: rest, k => if k' = k then some v else jlookup rest k

/-- Member access x.k on a non-null JS value: a field of an object, undefined
otherwise (primitive boxing never exposes these data fields). -/
def JValue.getField : JValue → String → Option JValue
  | .obj fs, k => jlookup fs k
  | _, _ => none

/-- JavaScript truthiness of a value. -/
def JValue.truthy : JValue → Bool
  | .null => false
  | .bool b => b
  | .num n => n != 0
  | .str s => s != ""
  | .obj _ => true
  | .arr _ => true

/-- JavaScript truthiness where none stands for undefined. -/
def truthyO : Option JValue → Bool
  | none => false
  | some v => v.truthy

/-- JS a || b for possibly-undefined values. -/
def jsOr (a b : Option JValue) : Option JValue :=
  if truthyO a then a else b

/-- JS a || lit where the chain ends in a literal default. -/
def jsOrV (a : Option JValue) (dflt : JValue) : JValue :=
  if truthyO a then a.getD dflt else dflt

/-- Optional-chaining member access x?.k (also models x.k when x is known
non-null, where a missing field yields undefined). -/
def oget (v : Option JValue) (k : String) : Option JValue :=
  v.bind (fun j => j.getField k)

/-- Member access on a value that is statically non-null. -/
def vget (v : JValue) (k : String) : Option JValue :=
  v.getField k

/-- Optional-chaining index access x?.[i]. -/
def oidx (v : Option JValue) (i : Nat) : Option JValue :=
  match v with
  | some (.arr xs) => xs.get? i
  | some (.obj fs) => jlookup fs (toString i)
  | _ => none

/-- Object.keys: field names of an object, stringified indices of an array,
empty for primitives. -/
def jsKeys : JValue → List String
  | .obj fs => fs.map Prod.fst
  | .arr xs => (List.range xs.length).map toString
  | _ => []

/-- Numeric value of a list of decimal digit characters. -/
def digitsVal (l : List Char) : Nat :=
  l.foldl (fun a c => a * 10 + (c.toNat - '0'.toNat)) 0

/-- Decimal digits of a JS parseInt argument string: leading whitespace,
optional sign, then a maximal run of decimal digits (none when no digit,
modelling NaN; the 0x radix corner is not exercised by the sources). -/
def parseIntStr (s : String) : Option Int :=
  let l := s.data.dropWhile Char.isWhitespace
  match l with
  | '-' :: rest =>
      let ds := rest.takeWhile Char.isDigit
      if ds.isEmpty then none else some (-(digitsVal ds : Int))
  | '+' :: rest =>
      let ds := rest.takeWhile Char.isDigit
      if ds.isEmpty then none else some (digitsVal ds : Int)
  | _ =>
      let ds := l.takeWhile Char.isDigit
      if ds.isEmpty then none else some (digitsVal ds : Int)

/-- JS parseInt on a JSON value (numbers are modelled as integers already;
none models NaN). -/
def jsParseInt : JValue → Option Int
  | .num n => some n
  | .str s => parseIntStr s
  | _ => none

/-!
String operations are implemented below over character lists by structural
recursion (with an explicit length fuel where a scan can skip ahead), so
that every definition evaluates inside the kernel; the corresponding
library functions use well-founded recursion and do not reduce
definitionally. -/

/-- Whether the first list is a prefix of the second. -/
def charsPrefix : List Char → List Char → Bool
  | [], _ => true
  | _ :: _, [] => false
  | p :: ps, c :: cs => p = c && charsPrefix ps cs

/-- Substring occurrence test on character lists. -/
def charsContains : List Char → List Char → Bool
  | [], pat => pat.isEmpty
  | l@(_ :: cs), pat => charsPrefix pat l || charsContains cs pat

/-- Splitting worker: scan for the (nonempty) separator, emitting the
accumulated segment at each occurrence.  The fuel starts above the input
length and each step consumes at least one character, so the zero-fuel
branch is unreachable. -/
def jsSplitAux (sep : List Char) : Nat → List Char → List Char →
    List (List Char)
  | 0, acc, _ => [acc.reverse]
  | fuel + 1, acc, l =>
      match l with
      | [] => [acc.reverse]
      | c :: cs =>
          if charsPrefix sep l then
            acc.reverse :: jsSplitAux sep fuel [] (l.drop sep.length)
          else jsSplitAux sep fuel (c :: acc) cs

/-- JS String.prototype.split for a nonempty separator string. -/
def jsSplit (s sep : String) : List String :=
  (jsSplitAux sep.data (s.data.length + 1) [] s.data).map String.mk

/-- Whitespace trim at both ends. -/
def strTrim (s : String) : String :=
  String.mk (((s.data.dropWhile Char.isWhitespace).reverse.dropWhile
    Char.isWhitespace).reverse)

/-- JS String.prototype.startsWith. -/
def strStartsWith (s pre : String) : Bool :=
  charsPrefix pre.data s.data

/-- ASCII lower-casing. -/
def strToLower (s : String) : String :=
  String.mk (s.data.map Char.toLower)

/-- ASCII upper-casing. -/
def strToUpper (s : String) : String :=
  String.mk (s.data.map Char.toUpper)

/-- Join with a semicolon-space separator (Array.prototype.join of the
cookie name=value parts). -/
def joinSemi : List String → String
  | [] => ""
  | [s] => s
  | s :: rest => s ++ "; " ++ joinSemi rest

/-- Substring test, modelling JS String.prototype.includes for a nonempty
pattern. -/
def strContains (s pat : String) : Bool :=
  charsContains s.data pat.data

/-- JS a || b on strings (empty string is falsy). -/
def strOr (a b : String) : String :=
  if a ≠ "" then a else b

/-! ### Association lists, modelling JS Map objects
JS Map.set keeps the original insertion position of an updated key and
appends new keys; Map.delete removes the (unique) entry of a key. -/

/-- Map.get: first value stored under the key. -/
def aget {α : Type} : List (String × α) → String → Option α
  | [], _ => none
  | (k', v) :: rest, k => if k' = k then some v else aget rest k

/-- Map.set: replace in place, or append a new entry. -/
def aset {α : Type} : List (String × α) → String → α → List (String × α)
  | [], k, v => [(k, v)]
  | (k', v') :: rest, k, v =>
      if k' = k then (k, v) :: rest else (k', v') :: aset rest k v

/-- Map.delete: drop the entries stored under the key. -/
def adel {α : Type} : List (String × α) → String → List (String × α)
  | [], _ => []
  | (k', v') :: rest, k =>
      if k' = k then adel rest k else (k', v') :: adel rest k

/-! ### Device discovery data model and registry merge
(renderer src/index.tsx, DeviceDiscoveryService) -/

inductive DeviceStatus where
  | online
  | offline
  | unknown
  deriving DecidableEq, Repr

inductive DeviceType where
  | transmitter
  | receiver
  | unknown
  deriving DecidableEq, Repr

/-- NVXDevice record of the renderer discovery service. -/
structure NVXDevice where
  id : String
  name : String
  ipAddress : String
  macAddress : Option String
  model : String
  firmwareVersion : String
  status : DeviceStatus
  lastSeen : Nat
  capabilities : List String
  deviceType : DeviceType
  deriving DecidableEq, Repr

/-- One step of DeviceDiscoveryService.deduplicateDevices: keep the stored
record unless the incoming one is strictly fresher. -/
def dedupStep (m : List (String × NVXDevice)) (d : NVXDevice) :
    List (String × NVXDevice) :=
  match aget m d.ipAddress with
  | none => aset m d.ipAddress d
  | some existing =>
      if existing.lastSeen < d.lastSeen then aset m d.ipAddress d else m

/-- DeviceDiscoveryService.deduplicateDevices: fold the candidates into a
map keyed by ipAddress and return the stored values in insertion order. -/
def deduplicateDevices (devices : List NVXDevice) : List NVXDevice :=
  (devices.foldl dedupStep []).map Prod.snd

/-! ### Vendor (Crestron) discovery probe response parsing
(main process, discoverCrestronDevices helpers) -/

/-- Character class of the version capture group [\d\.]. -/
def verChar (c : Char) : Bool :=
  c.isDigit || c = '.'

/-- Worker of the firmware-version scan, fuelled so that it reduces
definitionally (each step consumes at least one character). -/
def scanVersionF : Nat → List Char → Option String
  | 0, _ => none
  | fuel + 1, l =>
      match l with
      | '[' :: 'v' :: rest =>
          let run := rest.takeWhile verChar
          if run.isEmpty then scanVersionF fuel ('v' :: rest)
          else some (String.mk run)
      | _ :: rest => scanVersionF fuel rest
      | [] => none

/-- First match of the firmware-version pattern: a literal [v followed by at
least one digit or dot; the capture is the maximal such run.  Scans forward
one character at a time like a regex search. -/
def scanVersion (l : List Char) : Option String :=
  scanVersionF (l.length + 1) l

/-- Worker of the build-date scan, fuelled so that it reduces
definitionally. -/
def scanParenF : Nat → List Char → Option String
  | 0, _ => none
  | fuel + 1, l =>
      match l with
      | '(' :: rest =>
          let run := rest.takeWhile (fun c => c ≠ ')')
          if run.isEmpty then scanParenF fuel rest
          else if run.length < rest.length then some (String.mk run)
          else scanParenF fuel rest
      | _ :: rest => scanParenF fuel rest
      | [] => none

/-- First match of the build-date pattern: a parenthesised nonempty run of
non-parenthesis characters; fails at a position when the run reaches the end
of the string without a closing parenthesis. -/
def scanParen (l : List Char) : Option String :=
  scanParenF (l.length + 1) l

/-- Worker of the port-count scan, fuelled so that it reduces
definitionally. -/
def scanPortDigitsF : Nat → List Char → Option String
  | 0, _ => none
  | fuel + 1, l =>
      match l with
      | 'D' :: 'M' :: '-' :: 'N' :: 'V' :: 'X' :: '-' :: rest =>
          let run := rest.takeWhile Char.isDigit
          if run.isEmpty then
            scanPortDigitsF fuel ('M' :: '-' :: 'N' :: 'V' :: 'X' :: '-' :: rest)
          else some (String.mk run)
      | _ :: rest => scanPortDigitsF fuel rest
      | [] => none

/-- First match of the port-count pattern DM-NVX- followed by at least one
decimal digit; the capture is the maximal digit run. -/
def scanPortDigits (l : List Char) : Option String :=
  scanPortDigitsF (l.length + 1) l

/-- Result of extractModelAndVersion.  The JS function returns objects with
slightly different key sets; absent keys read as undefined, modelled here by
the empty string / false. -/
structure ExtractResult where
  model : String
  version : String
  buildDate : String
  skip : Bool
  deriving DecidableEq, Repr

/-- extractModelAndVersion of the Crestron probe: the model is everything
before the first opening bracket, trimmed; non-DM-NVX models are marked to
be skipped; the firmware version and build date are regex captures. -/
def extractModelAndVersion (description : String) : ExtractResult :=
  if description = "" then
    { model := "", version := "", buildDate := "", skip := true }
  else
    let model := strTrim ((jsSplit description "[").headD "")
    if ¬ strStartsWith model "DM-NVX" then
      { model := "", version := "", buildDate := "", skip := true }
    else
      let version := (scanVersion description.data).getD ""
      let buildDate := (scanParen description.data).getD ""
      { model := model,
        version := if version = "" then "" else "v" ++ version,
        buildDate := buildDate,
        skip := false }

/-- Device record produced by the Crestron probe (it carries extra fields on
top of the common discovery shape). -/
structure CrestronDevice where
  id : String
  name : String
  ipAddress : String
  macAddress : Option String
  model : String
  firmwareVersion : String
  status : DeviceStatus
  lastSeen : Nat
  capabilities : List String
  deviceType : DeviceType
  hostname : String
  description : String
  deviceId : String
  buildDate : String
  deriving DecidableEq, Repr

/-- parseCapabilities of the Crestron probe (keyed off the model number). -/
def parseCapabilitiesCr (model : String) : List String :=
  match scanPortDigits model.data with
  | some ds =>
      let portCount := digitsVal ds.data
      ["crestron_discovery", toString portCount ++ "_endpoints",
        "hdmi", "4k_support", "hdcp", "ethernet_streaming"]
        ++ (if portCount ≥ 350 then ["dante_audio", "advanced_scaling"] else [])
  | none => ["crestron_discovery"]

/-- determineDeviceType of the Crestron probe. -/
def determineDeviceTypeCr (model : String) : DeviceType :=
  let modelLower := strToLower model
  if strContains modelLower "tx" || strContains modelLower "transmitter" then
    .transmitter
  else if strContains modelLower "rx" || strContains modelLower "receiver" then
    .receiver
  else .unknown

/-- Drop the first at-sign of a string (JS replace with a string pattern
replaces only the first occurrence). -/
def dropFirstAt : List Char → List Char
  | [] => []
  | c :: rest => if c = '@' then rest else c :: dropFirstAt rest

/-- parseDeviceInfo of the Crestron probe.  The payload argument is the
response buffer after the 10-byte header, decoded as text; it is split on
null separators into hostname / description / device-id parts, and devices
whose extracted model does not start with DM-NVX are dropped. -/
def parseDeviceInfo (now : Nat) (payload : String) (address : String) :
    Option CrestronDevice :=
  let parts := (jsSplit payload "\x00").filter (fun p => p.length > 0)
  let hostname := strOr (parts.headD "") ""
  let description := strOr ((parts.drop 1).headD "") ""
  let deviceId :=
    match parts.drop 2 with
    | p :: _ => String.mk (dropFirstAt p.data)
    | [] => ""
  let r := extractModelAndVersion description
  if r.skip || !(strStartsWith r.model "DM-NVX") then none
  else
    some { id := strOr deviceId address,
           name := strOr hostname (strOr r.model ("DM-NVX Device (" ++ address ++ ")")),
           ipAddress := address,
           macAddress := none,
           model := r.model,
           firmwareVersion := strOr r.version "Unknown",
           status := .online,
           lastSeen := now,
           capabilities := parseCapabilitiesCr r.model,
           deviceType := determineDeviceTypeCr r.model,
           hostname := hostname,
           description := description,
           deviceId := deviceId,
           buildDate := r.buildDate }

/-! ### Session negotiation and parameter import
(main process import-parameters / identify-device / update-parameter
handlers).  The device and transport behaviour is abstracted as a Netw
record; the handlers are pure functions returning their IPC result together
with the ordered list of wire calls they attempt. -/

/-- One attempted wire call (the attempt is recorded whether or not the
device answers). -/
structure Call where
  secure : Bool
  method : String
  path : String
  body : Option JValue
  deriving Repr

/-- Response of a login POST as observed through axios with redirects
disabled and validateStatus below 500 (a status of 500 or more, like a
transport error, surfaces as a thrown exception, i.e. the .error branch of
the surrounding Except). -/
structure LoginResp where
  status : Nat
  xsrfToken : Option String
  setCookies : List String
  deriving DecidableEq, Repr

/-- Abstract behaviour of the device and both transports for one handler
run: outcome of the unauthenticated login-page GET and of the credential
POST on each scheme, of each authenticated sub-resource GET (none models a
thrown/failed request), and of the identify POST. -/
structure Netw where
  pageHttps : Except String (List String)
  pageHttp : Except String (List String)
  loginHttps : Except String LoginResp
  loginHttp : Except String LoginResp
  fetch : Bool → String → Option JValue
  identifyPost : Bool → Except String Nat

/-- TRACKID extraction from the Set-Cookie headers: first cookie containing
TRACKID, value between the first equals sign and the next semicolon.  The
source leaves trackId null when no header matches and then rejects a falsy
trackId, so an empty extracted value is folded into none here. -/
def extractTrackId (headers : List String) : Option String :=
  match headers.find? (fun c => strContains c "TRACKID") with
  | none => none
  | some c =>
      let t := ((jsSplit (((jsSplit c "=").drop 1).headD "") ";").headD "")
      if t = "" then none else some t

/-- name=value part of one Set-Cookie entry (attributes discarded). -/
def cookieSlice (c : String) : String :=
  (jsSplit c ";").headD ""

/-- Accumulated cookie string: name=value parts joined with a semicolon and
a space. -/
def cookieJoin (cs : List String) : String :=
  joinSemi (cs.map cookieSlice)

/-- The fixed, ordered battery of sub-resource endpoints fetched by
the import-parameters handler. -/
def deviceEndpoints : List String :=
  ["/Device/DeviceInfo", "/Device/NetworkAdapters", "/Device/DeviceSpecific",
   "/Device/StreamingVideo", "/Device/StreamingAudio", "/Device/USB",
   "/Device/Network", "/Device/EdidMgmnt", "/Device/DiscoveredStreams",
   "/Device/Identify", "/Device/AudioVideoInputOutput", "/Device"]

/-- Nested-shape resolution as written in the source for every sub-resource:
responses[e]?.Device?.R || responses[e]?.R || responses[e] || empty object. -/
def resolveResource (resp : Option JValue) (res : String) : JValue :=
  jsOrV (jsOr (jsOr (oget (oget resp "Device") res) (oget resp res)) resp)
    (JValue.obj [])

/-- Modelled from the spec words of the resolution rule, reading them
literally: use the value at Device.R when that field is present, otherwise
the value at R when present, otherwise the bare response body. -/
def resolveResourceClaim (resp : Option JValue) (res : String) : JValue :=
  match oget (oget resp "Device") res with
  | some v => v
  | none =>
      match oget resp res with
      | some v => v
      | none => resp.getD (JValue.obj [])

/-- The resolution rule with presence read as JS truthiness, the amended
reading of the spec sentence. -/
def resolveResourceTruthy (resp : Option JValue) (res : String) : JValue :=
  if truthyO (oget (oget resp "Device") res) then
    (oget (oget resp "Device") res).getD (JValue.obj [])
  else if truthyO (oget resp res) then (oget resp res).getD (JValue.obj [])
  else if truthyO resp then resp.getD (JValue.obj [])
  else JValue.obj []

/-- Root device object resolution: responses slash-Device ?.Device, else the
bare body, else empty. -/
def deviceRootOf (resp : Option JValue) : JValue :=
  jsOrV (jsOr (oget resp "Device") resp) (JValue.obj [])

/-- Primary Ethernet adapter extraction from the NetworkAdapters payload. -/
def primaryAdapterOf (networkAdapters : JValue) : JValue :=
  jsOrV (jsOr (oget (vget networkAdapters "Adapters") "EthernetPrimary")
      (vget networkAdapters "EthernetPrimary")) (JValue.obj [])

/-- Auxiliary Ethernet adapter extraction from the NetworkAdapters payload. -/
def auxAdapterOf (networkAdapters : JValue) : JValue :=
  jsOrV (jsOr (oget (vget networkAdapters "Adapters") "EthernetAux")
      (vget networkAdapters "EthernetAux")) (JValue.obj [])

/-- The comprehensive parameter object assembled by the import-parameters
handler.  Chains that can surface any JSON value are typed JValue; Boolean
casts are Bool; parseInt results are Option Int with none for NaN. -/
structure Parameters where
  ipAddress : String
  hostname : JValue
  firmwareVersion : JValue
  deviceName : JValue
  serialNumber : JValue
  model : JValue
  networkHostname : JValue
  icmpPingEnabled : Bool
  tcpKeepAliveEnabled : Bool
  igmpVersion : JValue
  addressSchema : JValue
  primaryAdapterName : JValue
  primaryMacAddress : JValue
  primaryIsEnabled : Bool
  primaryLinkStatus : Bool
  primaryIsActive : Bool
  primaryAutoNegotiation : JValue
  primaryDomainName : JValue
  primaryIPv4Address : JValue
  primaryIPv4SubnetMask : JValue
  primaryIPv4Gateway : JValue
  primaryDhcpEnabled : Bool
  primaryDnsServer : JValue
  secondaryDnsServer : JValue
  auxAdapterName : JValue
  auxMacAddress : JValue
  auxIsEnabled : Bool
  auxLinkStatus : Bool
  auxIPv4Address : JValue
  mode : JValue
  startStop : Bool
  status : JValue
  streamType : JValue
  bitrate : Option Int
  targetBitrate : Option Int
  preview : Bool
  videoMode : JValue
  videoSource : JValue
  xioRoute : JValue
  scalerResolution : JValue
  audioMode : JValue
  audioSource : JValue
  analogAudio : JValue
  syncHotplug : Bool
  hdmi1EDID : JValue
  hdmi1HDCP : Bool
  hdmi2EDID : JValue
  hdmi2HDCP : Bool
  igmp : Bool
  ttl : Option Int
  streamLocation : JValue
  multicastIP : JValue
  multicastMAC : JValue
  naxTxIP : JValue
  naxTxMAC : JValue
  naxRxIP : JValue
  naxTxStartStop : Bool
  naxTxStatus : JValue
  naxTxMode : JValue
  naxRxStartStop : Bool
  naxRxStatus : JValue
  naxRxMode : JValue
  usbMode : JValue
  usbTransport : JValue
  usbPairedDevices : JValue
  usbActions : JValue
  chassisSlot : Option Int
  chassisTSID : JValue
  chassisSerial : JValue
  ledsEnabled : Bool
  ipv6Supported : Bool
  ipv6PingEnabled : Bool
  ipv6MulticastProxy : Bool
  networkAdaptersVersion : JValue
  edidSystemList : List String
  edidCustomList : List String
  edidCopyList : List String
  edidVersion : JValue
  edidUploadPath : JValue
  discoveredStreamsList : List String
  streamsData : JValue
  streamCount : Nat
  identifySupported : Bool
  identifyMethods : List String
  audioInputs : JValue
  videoInputs : JValue
  audioOutputs : JValue
  videoOutputs : JValue
  lastUpdated : Nat

/-- The parameter-merge step of the import-parameters handler: resolve each
sub-resource response shape and assemble the comprehensive parameter object,
field by field as in the source. -/
def buildParameters (responses : String → Option JValue) (ip : String)
    (now : Nat) : Parameters :=
  let deviceInfo := resolveResource (responses "/Device/DeviceInfo") "DeviceInfo"
  let networkAdapters :=
    resolveResource (responses "/Device/NetworkAdapters") "NetworkAdapters"
  let deviceSpecific :=
    resolveResource (responses "/Device/DeviceSpecific") "DeviceSpecific"
  let streamingVideo :=
    resolveResource (responses "/Device/StreamingVideo") "StreamingVideo"
  let streamingAudio :=
    resolveResource (responses "/Device/StreamingAudio") "StreamingAudio"
  let usbData := resolveResource (responses "/Device/USB") "USB"
  let networkData := resolveResource (responses "/Device/Network") "Network"
  let deviceRoot := deviceRootOf (responses "/Device")
  let primaryAdapter := primaryAdapterOf networkAdapters
  let auxAdapter := auxAdapterOf networkAdapters
  let dnsSettings := jsOrV (vget networkAdapters "DnsSettings") (JValue.obj [])
  let edidMgmnt := resolveResource (responses "/Device/EdidMgmnt") "EdidMgmnt"
  let discoveredStreams :=
    resolveResource (responses "/Device/DiscoveredStreams") "DiscoveredStreams"
  let identifyData := resolveResource (responses "/Device/Identify") "Identify"
  let audioVideoIO :=
    resolveResource (responses "/Device/AudioVideoInputOutput")
      "AudioVideoInputOutput"
  { ipAddress := ip,
    hostname :=
      jsOrV (jsOr (jsOr (jsOr (vget networkAdapters "HostName")
          (vget deviceInfo "HostName")) (vget deviceInfo "Name"))
          (vget primaryAdapter "Name")) (.str "Unknown"),
    firmwareVersion :=
      jsOrV (jsOr (jsOr (vget deviceInfo "FirmwareVersion")
          (vget deviceInfo "Version")) (vget deviceRoot "FirmwareVersion"))
        (.str "Unknown"),
    deviceName :=
      jsOrV (jsOr (jsOr (vget deviceInfo "FriendlyName")
          (vget deviceInfo "DeviceName")) (vget deviceInfo "Name"))
        (.str ("DM-NVX Device (" ++ ip ++ ")")),
    serialNumber :=
      jsOrV (jsOr (jsOr (vget deviceInfo "SerialNumber")
          (vget deviceInfo "Serial")) (vget deviceRoot "SerialNumber"))
        (.str "Unknown"),
    model :=
      jsOrV (jsOr (vget deviceInfo "Model") (vget deviceInfo "DeviceModel"))
        (.str "DM-NVX"),
    networkHostname := jsOrV (vget networkAdapters "HostName") (.str "Unknown"),
    icmpPingEnabled := truthyO (vget networkAdapters "IsIcmpPingEnabled"),
    tcpKeepAliveEnabled := truthyO (vget networkAdapters "IsTcpKeepAliveEnabled"),
    igmpVersion := jsOrV (vget networkAdapters "IgmpVersion") (.str "v2"),
    addressSchema := jsOrV (vget networkAdapters "AddressSchema") (.str "IPv4"),
    primaryAdapterName := jsOrV (vget primaryAdapter "Name") (.str "eth0"),
    primaryMacAddress := jsOrV (vget primaryAdapter "MacAddress") (.str "Unknown"),
    primaryIsEnabled := truthyO (vget primaryAdapter "IsAdapterEnabled"),
    primaryLinkStatus := truthyO (vget primaryAdapter "LinkStatus"),
    primaryIsActive := truthyO (vget primaryAdapter "IsActive"),
    primaryAutoNegotiation :=
      jsOrV (vget primaryAdapter "AutoNegotiation") (.str "On"),
    primaryDomainName := jsOrV (vget primaryAdapter "DomainName") (.str ""),
    primaryIPv4Address :=
      jsOrV (jsOr (oget (oidx (oget (vget primaryAdapter "IPv4") "Addresses") 0)
          "Address") (oget (vget primaryAdapter "IPv4") "CurrentAddress"))
        (.str "Unknown"),
    primaryIPv4SubnetMask :=
      jsOrV (jsOr (oget (oidx (oget (vget primaryAdapter "IPv4") "Addresses") 0)
          "SubnetMask") (oget (vget primaryAdapter "IPv4") "CurrentSubnetMask"))
        (.str "Unknown"),
    primaryIPv4Gateway :=
      jsOrV (oget (vget primaryAdapter "IPv4") "DefaultGateway") (.str "Unknown"),
    primaryDhcpEnabled := truthyO (oget (vget primaryAdapter "IPv4") "IsDhcpEnabled"),
    primaryDnsServer :=
      jsOrV (jsOr (oidx (oget (vget dnsSettings "IPv4") "DnsServers") 0)
          (oget (oget (vget dnsSettings "DnsServers") "Server01") "Address"))
        (.str "Unknown"),
    secondaryDnsServer :=
      jsOrV (jsOr (oidx (oget (vget dnsSettings "IPv4") "DnsServers") 1)
          (oget (oget (vget dnsSettings "DnsServers") "Server02") "Address"))
        (.str "Unknown"),
    auxAdapterName := jsOrV (vget auxAdapter "Name") (.str "eth1"),
    auxMacAddress := jsOrV (vget auxAdapter "MacAddress") (.str "Unknown"),
    auxIsEnabled := truthyO (vget auxAdapter "IsAdapterEnabled"),
    auxLinkStatus := truthyO (vget auxAdapter "LinkStatus"),
    auxIPv4Address :=
      jsOrV (oget (oidx (oget (vget auxAdapter "IPv4") "Addresses") 0) "Address")
        (.str "Not Configured"),
    mode :=
      jsOrV (jsOr (jsOr (vget streamingVideo "Mode") (vget streamingAudio "Mode"))
          (vget deviceRoot "Mode")) (.str "Unknown"),
    startStop :=
      truthyO (jsOr (jsOr (vget streamingVideo "Enabled")
          (vget streamingVideo "IsRunning")) (vget streamingAudio "Enabled")),
    status :=
      jsOrV (jsOr (jsOr (vget streamingVideo "Status")
          (vget streamingAudio "Status")) (vget deviceRoot "Status"))
        (.str "Unknown"),
    streamType :=
      jsOrV (jsOr (vget streamingVideo "Codec")
          (vget streamingVideo "CompressionType")) (.str "H.264"),
    bitrate :=
      jsParseInt (jsOrV (jsOr (vget streamingVideo "Bitrate")
          (vget streamingVideo "CurrentBitrate")) (.num 0)),
    targetBitrate :=
      jsParseInt (jsOrV (jsOr (vget streamingVideo "TargetBitrate")
          (vget streamingVideo "MaxBitrate")) (.num 100)),
    preview :=
      truthyO (jsOr (vget streamingVideo "PreviewEnabled")
          (vget streamingVideo "IsPreviewEnabled")),
    videoMode :=
      jsOrV (jsOr (vget streamingVideo "Resolution")
          (vget streamingVideo "VideoFormat")) (.str "1920x1080@60"),
    videoSource :=
      jsOrV (jsOr (vget streamingVideo "Source")
          (vget streamingVideo "InputSource")) (.str "HDMI 1"),
    xioRoute :=
      jsOrV (jsOr (vget streamingVideo "XioRoute")
          (vget streamingVideo "RoutingMode")) (.str "Local"),
    scalerResolution :=
      jsOrV (jsOr (vget streamingVideo "ScalerResolution")
          (vget streamingVideo "OutputResolution")) (.str "1920x1080"),
    audioMode :=
      jsOrV (jsOr (vget streamingAudio "Mode") (vget streamingAudio "AudioFormat"))
        (.str "PCM"),
    audioSource :=
      jsOrV (jsOr (vget streamingAudio "Source")
          (vget streamingAudio "InputSource")) (.str "HDMI"),
    analogAudio :=
      jsOrV (jsOr (vget streamingAudio "AnalogMode")
          (vget streamingAudio "AnalogLevel")) (.str "Line Level"),
    syncHotplug :=
      truthyO (jsOr (vget streamingVideo "SyncHotplug")
          (vget streamingVideo "HotplugDetection")),
    hdmi1EDID :=
      jsOrV (jsOr (vget streamingVideo "HDMI1_EDID")
          (oget (oget (vget streamingVideo "HDMI") "Port1") "EDID"))
        (.str "Standard"),
    hdmi1HDCP :=
      truthyO (jsOr (vget streamingVideo "HDMI1_HDCP")
          (oget (oget (vget streamingVideo "HDMI") "Port1") "HDCP")),
    hdmi2EDID :=
      jsOrV (jsOr (vget streamingVideo "HDMI2_EDID")
          (oget (oget (vget streamingVideo "HDMI") "Port2") "EDID"))
        (.str "Standard"),
    hdmi2HDCP :=
      truthyO (jsOr (vget streamingVideo "HDMI2_HDCP")
          (oget (oget (vget streamingVideo "HDMI") "Port2") "HDCP")),
    igmp :=
      truthyO (jsOr (vget networkData "IGMP") (vget networkAdapters "IgmpVersion")),
    ttl :=
      jsParseInt (jsOrV (jsOr (vget networkData "TTL")
          (vget networkData "TimeToLive")) (.num 15)),
    streamLocation :=
      jsOrV (jsOr (vget networkData "StreamLocation")
          (vget networkData "MulticastLocation")) (.str "Local Network"),
    multicastIP :=
      jsOrV (jsOr (vget networkData "MulticastIP")
          (vget streamingVideo "MulticastAddress")) (.str "239.1.1.1"),
    multicastMAC :=
      jsOrV (jsOr (vget networkData "MulticastMAC")
          (vget streamingVideo "MulticastMAC")) (.str "01:00:5E:01:01:01"),
    naxTxIP :=
      jsOrV (jsOr (vget networkData "NAX_TX_IP")
          (oget (oget (vget networkData "NAX") "Transmitter") "IP"))
        (.str "239.255.255.1"),
    naxTxMAC :=
      jsOrV (jsOr (vget networkData "NAX_TX_MAC")
          (oget (oget (vget networkData "NAX") "Transmitter") "MAC"))
        (.str "01:00:5E:FF:FF:01"),
    naxRxIP :=
      jsOrV (jsOr (vget networkData "NAX_RX_IP")
          (oget (oget (vget networkData "NAX") "Receiver") "IP"))
        (.str "239.255.255.2"),
    naxTxStartStop :=
      truthyO (jsOr (oget (oget (vget networkData "NAX") "Transmitter") "Enabled")
          (vget networkData "NAXTxEnabled")),
    naxTxStatus :=
      jsOrV (jsOr (oget (oget (vget networkData "NAX") "Transmitter") "Status")
          (vget networkData "NAXTxStatus")) (.str "Stopped"),
    naxTxMode :=
      jsOrV (jsOr (oget (oget (vget networkData "NAX") "Transmitter") "Mode")
          (vget networkData "NAXTxMode")) (.str "Auto"),
    naxRxStartStop :=
      truthyO (jsOr (oget (oget (vget networkData "NAX") "Receiver") "Enabled")
          (vget networkData "NAXRxEnabled")),
    naxRxStatus :=
      jsOrV (jsOr (oget (oget (vget networkData "NAX") "Receiver") "Status")
          (vget networkData "NAXRxStatus")) (.str "Stopped"),
    naxRxMode :=
      jsOrV (jsOr (oget (oget (vget networkData "NAX") "Receiver") "Mode")
          (vget networkData "NAXRxMode")) (.str "Auto"),
    usbMode :=
      jsOrV (jsOr (vget usbData "Mode") (vget usbData "OperatingMode"))
        (.str "Device"),
    usbTransport :=
      jsOrV (jsOr (vget usbData "Transport") (vget usbData "TransportType"))
        (.str "USB 2.0"),
    usbPairedDevices :=
      jsOrV (jsOr (vget usbData "PairedDevices") (vget usbData "ConnectedDevices"))
        (.arr []),
    usbActions :=
      jsOrV (jsOr (vget usbData "AvailableActions")
          (vget usbData "SupportedCommands"))
        (.arr [.str "Pair", .str "Unpair", .str "Reset"]),
    chassisSlot :=
      jsParseInt (jsOrV (jsOr (jsOr (vget deviceInfo "ChassisSlot")
          (vget deviceInfo "SlotNumber")) (vget deviceRoot "ChassisSlot"))
        (.num 1)),
    chassisTSID :=
      jsOrV (jsOr (jsOr (vget deviceInfo "TSID") (vget deviceInfo "ChassisID"))
          (vget deviceRoot "TSID")) (.str "CHAS001"),
    chassisSerial :=
      jsOrV (jsOr (jsOr (vget deviceInfo "ChassisSerial")
          (vget deviceInfo "ChassisSerialNumber"))
          (vget deviceRoot "ChassisSerial")) (.str "Unknown"),
    ledsEnabled :=
      truthyO (jsOr (vget deviceSpecific "LedsEnabled")
          (vget deviceSpecific "LEDsEnabled")),
    ipv6Supported := truthyO (oget (vget networkAdapters "IPv6") "IsSupported"),
    ipv6PingEnabled :=
      truthyO (oget (vget networkAdapters "IPv6") "IsIcmpPingEnabled"),
    ipv6MulticastProxy :=
      truthyO (oget (vget networkAdapters "IPv6") "IsMulticastProxyEnabled"),
    networkAdaptersVersion := jsOrV (vget networkAdapters "Version") (.str "1.0.0"),
    edidSystemList := jsKeys (jsOrV (vget edidMgmnt "SystemEdidList") (.obj [])),
    edidCustomList := jsKeys (jsOrV (vget edidMgmnt "CustomEdidList") (.obj [])),
    edidCopyList := jsKeys (jsOrV (vget edidMgmnt "CopyEdidList") (.obj [])),
    edidVersion := jsOrV (vget edidMgmnt "Version") (.str "Unknown"),
    edidUploadPath := jsOrV (vget edidMgmnt "UploadFilePath") (.str ""),
    discoveredStreamsList :=
      jsKeys (jsOrV (vget discoveredStreams "Streams") (.obj [])),
    streamsData := jsOrV (vget discoveredStreams "Streams") (.obj []),
    streamCount :=
      (jsKeys (jsOrV (vget discoveredStreams "Streams") (.obj []))).length,
    identifySupported := identifyData.truthy,
    identifyMethods :=
      jsKeys (if identifyData.truthy then identifyData else .obj []),
    audioInputs := jsOrV (vget audioVideoIO "AudioInputs") (.obj []),
    videoInputs := jsOrV (vget audioVideoIO "VideoInputs") (.obj []),
    audioOutputs := jsOrV (vget audioVideoIO "AudioOutputs") (.obj []),
    videoOutputs := jsOrV (vget audioVideoIO "VideoOutputs") (.obj []),
    lastUpdated := now }

/-- The synthetically generated default parameter set of the mock fallback
(it carries fewer fields than the live one).  The Math.random-derived serial
suffixes are explicit arguments. -/
structure MockParameters where
  ipAddress : String
  hostname : String
  firmwareVersion : String
  deviceName : String
  serialNumber : String
  mode : String
  startStop : Bool
  status : String
  streamType : String
  bitrate : Int
  targetBitrate : Int
  preview : Bool
  videoMode : String
  videoSource : String
  xioRoute : String
  scalerResolution : String
  audioMode : String
  audioSource : String
  analogAudio : String
  syncHotplug : Bool
  hdmi1EDID : String
  hdmi1HDCP : Bool
  hdmi2EDID : String
  hdmi2HDCP : Bool
  igmp : Bool
  ttl : Int
  streamLocation : String
  multicastIP : String
  multicastMAC : String
  naxTxIP : String
  naxTxMAC : String
  naxRxIP : String
  naxTxStartStop : Bool
  naxTxStatus : String
  naxTxMode : String
  naxRxStartStop : Bool
  naxRxStatus : String
  naxRxMode : String
  usbMode : String
  usbTransport : String
  usbPairedDevices : List String
  usbActions : List String
  chassisSlot : Int
  chassisTSID : String
  chassisSerial : String
  ledsEnabled : Bool
  lastUpdated : Nat
  deriving Repr

/-- The mockParameters object built by the import-parameters handler when an
exception escapes its body. -/
def mockParameters (ip : String) (now : Nat) (randSerial randChassis : String) :
    MockParameters :=
  { ipAddress := ip,
    hostname := "nvx-device-" ++ ((jsSplit ip ".").getLastD ""),
    firmwareVersion := "v7.3.0173.23090",
    deviceName := "DM-NVX-384 (" ++ ip ++ ")",
    serialNumber := "NVX" ++ strToUpper randSerial,
    mode := "Transmitter",
    startStop := false,
    status := "Stopped",
    streamType := "H.264",
    bitrate := 0,
    targetBitrate := 100,
    preview := false,
    videoMode := "1920x1080@60",
    videoSource := "HDMI 1",
    xioRoute := "Local",
    scalerResolution := "1920x1080",
    audioMode := "PCM",
    audioSource := "HDMI",
    analogAudio := "Line Level",
    syncHotplug := true,
    hdmi1EDID := "Standard",
    hdmi1HDCP := false,
    hdmi2EDID := "Standard",
    hdmi2HDCP := false,
    igmp := true,
    ttl := 15,
    streamLocation := "Local Network",
    multicastIP := "239.1.1.1",
    multicastMAC := "01:00:5E:01:01:01",
    naxTxIP := "239.255.255.1",
    naxTxMAC := "01:00:5E:FF:FF:01",
    naxRxIP := "239.255.255.2",
    naxTxStartStop := false,
    naxTxStatus := "Stopped",
    naxTxMode := "Auto",
    naxRxStartStop := false,
    naxRxStatus := "Stopped",
    naxRxMode := "Auto",
    usbMode := "Device",
    usbTransport := "USB 2.0",
    usbPairedDevices := ["Touch Panel", "Keyboard"],
    usbActions := ["Pair", "Unpair", "Reset"],
    chassisSlot := 1,
    chassisTSID := "CHAS001",
    chassisSerial := "CH" ++ strToUpper randChassis,
    ledsEnabled := true,
    lastUpdated := now }

/-- Parameter payload carried by an import result: the live merged object or
the synthetic default set. -/
inductive ParamPayload where
  | real (p : Parameters)
  | mock (m : MockParameters)

/-- IPC result of the import-parameters handler.  An absent isMockData key
of the JS object reads as false. -/
structure ImportResult where
  success : Bool
  parameters : Option ParamPayload
  isMockData : Bool
  error : Option String

/-- The responses dictionary the handler builds: an entry exists for a
listed endpoint whose authenticated GET returned truthy data. -/
def respsOf (n : Netw) (useHttps : Bool) : String → Option JValue :=
  fun e =>
    if deviceEndpoints.elem e then
      match n.fetch useHttps e with
      | some d => if d.truthy then some d else none
      | none => none
    else none

/-- Result of the catch-all fallback of the import-parameters handler. -/
def mockFallback (ip : String) (now : Nat) (r1 r2 : String) (msg : String) :
    ImportResult :=
  { success := true,
    parameters := some (.mock (mockParameters ip now r1 r2)),
    isMockData := true,
    error := some ("Could not retrieve real device parameters via GET commands: "
      ++ msg ++ ". Showing mock data for interface testing.") }

/-- Steps 3 and 4 of the import-parameters handler, after the login POST
answered on the scheme chosen at step 2: reject a status other than 200/302,
otherwise fetch the whole endpoint battery, assemble the parameters and log
out, all over that same scheme. -/
def importAfterLogin (n : Netw) (ip : String) (now : Nat) (useHttps : Bool)
    (resp : LoginResp) (tr : List Call) : ImportResult × List Call :=
  if resp.status ≠ 200 ∧ resp.status ≠ 302 then
    ({ success := false, parameters := none, isMockData := false,
       error := some "Authentication failed for parameter import" }, tr)
  else
    let fetchCalls := deviceEndpoints.map (fun e =>
      { secure := useHttps, method := "GET", path := e, body := none : Call })
    let params := buildParameters (respsOf n useHttps) ip now
    ({ success := true, parameters := some (.real params), isMockData := false,
       error := none },
     tr ++ fetchCalls
        ++ [{ secure := useHttps, method := "GET", path := "/logout",
              body := none }])

/-- Step 2 of the import-parameters handler: reject a missing tracking
value, then POST the credentials over the secure transport first, falling
back to the insecure transport when the secure POST throws; a second throw
escapes to the catch-all mock fallback. -/
def importWithTrackId (n : Netw) (ip : String) (now : Nat) (r1 r2 : String)
    (tid : Option String) (tr : List Call) : ImportResult × List Call :=
  match tid with
  | none =>
      ({ success := false, parameters := none, isMockData := false,
         error := some "Failed to connect to device for parameter import" }, tr)
  | some _ =>
      let c3 : Call :=
        { secure := true, method := "POST", path := "/userlogin.html", body := none }
      match n.loginHttps with
      | .ok resp => importAfterLogin n ip now true resp (tr ++ [c3])
      | .error _ =>
          let c4 : Call :=
            { secure := false, method := "POST", path := "/userlogin.html",
              body := none }
          match n.loginHttp with
          | .ok resp => importAfterLogin n ip now false resp (tr ++ [c3, c4])
          | .error msg => (mockFallback ip now r1 r2 msg, tr ++ [c3, c4])

/-- The import-parameters IPC handler.  Step 1 obtains the TRACKID cookie
over the secure transport, retrying over the insecure transport when the
secure GET throws; note that this step-1 fallback leaves the useHttps flag
of step 2 untouched in the source.  A throw on both transports escapes to
the catch-all mock fallback. -/
def importParameters (n : Netw) (ip : String) (now : Nat) (r1 r2 : String) :
    ImportResult × List Call :=
  let c1 : Call :=
    { secure := true, method := "GET", path := "/userlogin.html", body := none }
  match n.pageHttps with
  | .ok hs => importWithTrackId n ip now r1 r2 (extractTrackId hs) [c1]
  | .error _ =>
      let c2 : Call :=
        { secure := false, method := "GET", path := "/userlogin.html", body := none }
      match n.pageHttp with
      | .ok hs => importWithTrackId n ip now r1 r2 (extractTrackId hs) [c1, c2]
      | .error msg => (mockFallback ip now r1 r2 msg, [c1, c2])

/-- Hostname field of a live import result, for concise statements. -/
def importedHostname (r : ImportResult) : Option JValue :=
  match r.parameters with
  | some (.real p) => some p.hostname
  | _ => none

/-! ### Identify handler -/

/-- Start-action payload of the identify POST. -/
def identifyPayload (duration : Int) : JValue :=
  .obj [("Device", .obj [("Identify",
    .obj [("Action", .str "Start"), ("Duration", .num duration)])])]

/-- Step 3 and 4 of the identify-device handler after a login response:
reject a status other than 200/302, POST the start action, and on a 200
answer log out and report success carrying the requested duration. -/
def identifyAfterLogin (n : Netw) (d : Int) (useHttps : Bool)
    (resp : LoginResp) (tr : List Call) : JValue × List Call :=
  if resp.status ≠ 200 ∧ resp.status ≠ 302 then
    (.obj [("success", .bool false),
           ("error", .str "Authentication failed for device identify")], tr)
  else
    let cI : Call :=
      { secure := useHttps, method := "POST", path := "/Device/Identify",
        body := some (identifyPayload d) }
    match n.identifyPost useHttps with
    | .ok s =>
        if s = 200 then
          let cL : Call :=
            { secure := useHttps, method := "GET", path := "/logout", body := none }
          (.obj [("success", .bool true), ("duration", .num d),
                 ("method", .str "official_identify_endpoint")], tr ++ [cI, cL])
        else
          (.obj [("success", .bool false),
                 ("error", .str ("Identify failed with status: " ++ toString s))],
           tr ++ [cI])
    | .error msg =>
        (.obj [("success", .bool false),
               ("error", .str ("Identify endpoint failed: " ++ msg))], tr ++ [cI])

/-- Step 2 of the identify-device handler (credential POST with the same
secure-then-insecure retry as the import handler). -/
def identifyWithTrackId (n : Netw) (d : Int) (tid : Option String)
    (tr : List Call) : JValue × List Call :=
  match tid with
  | none =>
      (.obj [("success", .bool false),
             ("error", .str "Failed to connect to device for identify")], tr)
  | some _ =>
      let c3 : Call :=
        { secure := true, method := "POST", path := "/userlogin.html", body := none }
      match n.loginHttps with
      | .ok resp => identifyAfterLogin n d true resp (tr ++ [c3])
      | .error _ =>
          let c4 : Call :=
            { secure := false, method := "POST", path := "/userlogin.html",
              body := none }
          match n.loginHttp with
          | .ok resp => identifyAfterLogin n d false resp (tr ++ [c3, c4])
          | .error msg =>
              (.obj [("success", .bool false),
                     ("error", .str (strOr msg "Device identify failed"))],
               tr ++ [c3, c4])

/-- The identify-device IPC handler, returning the JS result object and the
attempted wire calls. -/
def identifyDevice (n : Netw) (d : Int) : JValue × List Call :=
  let c1 : Call :=
    { secure := true, method := "GET", path := "/userlogin.html", body := none }
  match n.pageHttps with
  | .ok hs => identifyWithTrackId n d (extractTrackId hs) [c1]
  | .error _ =>
      let c2 : Call :=
        { secure := false, method := "GET", path := "/userlogin.html", body := none }
      match n.pageHttp with
      | .ok hs => identifyWithTrackId n d (extractTrackId hs) [c1, c2]
      | .error msg =>
          (.obj [("success", .bool false),
                 ("error", .str (strOr msg "Device identify failed"))], [c1, c2])

/-- True when a recorded call carries an identify stop action. -/
def isStopCall (c : Call) : Bool :=
  match oget (oget (oget c.body "Device") "Identify") "Action" with
  | some (.str s) => s = "Stop"
  | _ => false

/-! ### Update-parameter handler -/

structure UpdateResult where
  success : Bool
  error : Option String
  deriving DecidableEq, Repr

/-- The update-parameter IPC handler: the source is a placeholder that logs
the request and returns success without issuing any device call. -/
def updateParameterHandler (ip param : String) (value : JValue) :
    UpdateResult × List Call :=
  ({ success := true, error := none }, [])

/-! ### Renderer DeviceConnectionService state machine
(renderer src/index.tsx).  The Electron IPC outcomes consumed by the
service are passed in explicitly. -/

structure DeviceCredentials where
  username : String
  password : String
  deriving DecidableEq, Repr

structure ConnectionStatus where
  isConnected : Bool
  lastConnected : Option Nat
  error : Option String
  deriving DecidableEq, Repr

inductive CertType where
  | validCaOnly
  | validCaAndSelfSigned
  | anyCertificate
  deriving DecidableEq, Repr

structure CertificateOptions where
  type : CertType
  rejectUnauthorized : Bool
  deriving DecidableEq, Repr

/-- The four private maps of DeviceConnectionService. -/
structure ConnState where
  connections : List (String × ConnectionStatus)
  credentials : List (String × DeviceCredentials)
  deviceParameters : List (String × ParamPayload)
  certificateOptions : List (String × CertificateOptions)

/-- The empty service state (all maps empty). -/
def emptyConnState : ConnState :=
  { connections := [], credentials := [], deviceParameters := [],
    certificateOptions := [] }

/-- IPC result of connect-device as consumed by the renderer. -/
structure ConnectIpc where
  success : Bool
  error : Option String
  deriving DecidableEq, Repr

/-- DeviceConnectionService.connectToDevice: store the certificate options
(defaulting to any-certificate) before the IPC call, then record the
connection outcome; a thrown IPC call is caught and recorded as a failed
status carrying the message. -/
def connectToDevice (st : ConnState) (ip : String) (creds : DeviceCredentials)
    (certOpts : Option CertificateOptions) (now : Nat)
    (ipc : Except String ConnectIpc) : ConnState × ConnectIpc :=
  let opts := certOpts.getD { type := .anyCertificate, rejectUnauthorized := false }
  let st1 := { st with certificateOptions := aset st.certificateOptions ip opts }
  match ipc with
  | .ok r =>
      if r.success then
        ({ st1 with
            connections := aset st1.connections ip
              { isConnected := true, lastConnected := some now, error := none },
            credentials := aset st1.credentials ip creds },
         { success := true, error := none })
      else
        ({ st1 with
            connections := aset st1.connections ip
              { isConnected := false, lastConnected := none, error := r.error } },
         { success := false, error := r.error })
  | .error msg =>
      ({ st1 with
          connections := aset st1.connections ip
            { isConnected := false, lastConnected := none, error := some msg } },
       { success := false, error := some msg })

/-- DeviceConnectionService.getConnectionStatus. -/
def getConnectionStatus (st : ConnState) (ip : String) : ConnectionStatus :=
  (aget st.connections ip).getD
    { isConnected := false, lastConnected := none, error := none }

/-- DeviceConnectionService.isDeviceConnected (status?.isConnected or
false). -/
def isDeviceConnected (st : ConnState) (ip : String) : Bool :=
  match aget st.connections ip with
  | some s => s.isConnected
  | none => false

/-- DeviceConnectionService.getDeviceParameters. -/
def getDeviceParameters (st : ConnState) (ip : String) : Option ParamPayload :=
  aget st.deviceParameters ip

/-- DeviceConnectionService.getCredentials. -/
def getCredentials (st : ConnState) (ip : String) : Option DeviceCredentials :=
  aget st.credentials ip

/-- DeviceConnectionService.getCertificateOptions. -/
def getCertificateOptions (st : ConnState) (ip : String) :
    Option CertificateOptions :=
  aget st.certificateOptions ip

/-- DeviceConnectionService.disconnectDevice: record a disconnected status
and drop the stored credentials and certificate options. -/
def disconnectDevice (st : ConnState) (ip : String) : ConnState :=
  { st with
      connections := aset st.connections ip
        { isConnected := false, lastConnected := none, error := none },
      credentials := adel st.credentials ip,
      certificateOptions := adel st.certificateOptions ip }

/-- IPC result of import-parameters as consumed by the renderer (the
isMockData flag is passed through untouched by the service). -/
structure ImportIpc where
  success : Bool
  parameters : Option ParamPayload
  error : Option String

/-- DeviceConnectionService.importDeviceParameters: guard on connection and
credentials, call through IPC, and cache the parameters on success (the
lastUpdated normalisation keeps the incoming timestamp, which is always
present in the payload model). -/
def importDeviceParameters (st : ConnState) (ip : String)
    (ipc : Except String ImportIpc) : ConnState × ImportIpc :=
  if ¬ isDeviceConnected st ip then
    (st, { success := false, parameters := none,
           error := some "Device not connected. Please connect first." })
  else
    match aget st.credentials ip with
    | none =>
        (st, { success := false, parameters := none,
               error := some "No credentials found for device." })
    | some _ =>
        match ipc with
        | .ok r =>
            match r.parameters with
            | some p =>
                if r.success then
                  ({ st with deviceParameters := aset st.deviceParameters ip p },
                   { success := true, parameters := some p, error := none })
                else
                  (st, { success := false, parameters := none,
                         error := some (strOr (r.error.getD "")
                           "Failed to import parameters") })
            | none =>
                (st, { success := false, parameters := none,
                       error := some (strOr (r.error.getD "")
                         "Failed to import parameters") })
        | .error msg => (st, { success := false, parameters := none,
                               error := some msg })

/-! ### Concrete inputs used by witnesses and counterexamples -/

/-- A discovery candidate at 10.0.0.5 first seen at time 100. -/
def devA : NVXDevice :=
  { id := "a", name := "NVX A", ipAddress := "10.0.0.5", macAddress := none,
    model := "DM-NVX-350", firmwareVersion := "v7.0", status := .online,
    lastSeen := 100, capabilities := ["crestron_discovery"],
    deviceType := .transmitter }

/-- A fresher candidate at the same address, seen at time 200. -/
def devB : NVXDevice :=
  { id := "b", name := "NVX B", ipAddress := "10.0.0.5", macAddress := none,
    model := "DM-NVX-350", firmwareVersion := "v7.1", status := .online,
    lastSeen := 200, capabilities := ["upnp"], deviceType := .receiver }

/-- A candidate at a different address. -/
def devC : NVXDevice :=
  { id := "c", name := "NVX C", ipAddress := "10.0.0.7", macAddress := none,
    model := "DM-NVX-360", firmwareVersion := "v7.2", status := .online,
    lastSeen := 150, capabilities := [], deviceType := .unknown }

/-- A candidate list with a duplicated address. -/
def ds0 : List NVXDevice := [devA, devB, devC]

/-- A Crestron discovery payload (after the 10-byte header): hostname,
description and device-id separated by null bytes. -/
def crestronSamplePayload : String := "host1\x00DM-NVX-350 Tx\x00@E-aabb"

/-- The device record the probe parser produces for the sample payload. -/
def crestronSampleDevice : CrestronDevice :=
  { id := "E-aabb", name := "host1", ipAddress := "10.0.0.9",
    macAddress := none, model := "DM-NVX-350 Tx", firmwareVersion := "Unknown",
    status := .online, lastSeen := 42,
    capabilities := ["crestron_discovery", "350_endpoints", "hdmi",
      "4k_support", "hdcp", "ethernet_streaming", "dante_audio",
      "advanced_scaling"],
    deviceType := .transmitter, hostname := "host1",
    description := "DM-NVX-350 Tx", deviceId := "E-aabb", buildDate := "" }

/-- A device whose login page answers on both transports but sets no
TRACKID cookie. -/
def netwNoCookie : Netw :=
  { pageHttps := .ok [], pageHttp := .ok [],
    loginHttps := .ok { status := 200, xsrfToken := none, setCookies := [] },
    loginHttp := .ok { status := 200, xsrfToken := none, setCookies := [] },
    fetch := fun _ _ => none, identifyPost := fun _ => .ok 200 }

/-- A device whose login page GET throws on both transports. -/
def netwUnreachable : Netw :=
  { pageHttps := .error "connect ETIMEDOUT", pageHttp := .error "connect ECONNREFUSED",
    loginHttps := .ok { status := 200, xsrfToken := none, setCookies := [] },
    loginHttp := .ok { status := 200, xsrfToken := none, setCookies := [] },
    fetch := fun _ _ => none, identifyPost := fun _ => .ok 200 }

/-- A device for which the secure login-page GET throws, the insecure one
succeeds with a TRACKID cookie, and the secure login POST then succeeds. -/
def netwMixedScheme : Netw :=
  { pageHttps := .error "ssl handshake failure",
    pageHttp := .ok ["TRACKID=abc123; Path=/"],
    loginHttps := .ok { status := 200, xsrfToken := some "tok123",
                        setCookies := ["userid=admin; HttpOnly"] },
    loginHttp := .ok { status := 200, xsrfToken := some "tok123",
                       setCookies := ["userid=admin; HttpOnly"] },
    fetch := fun _ _ => some (.obj []), identifyPost := fun _ => .ok 200 }

/-- A device that authenticates over the secure transport, whose DeviceInfo
fetch fails while the remaining sub-resources answer; the NetworkAdapters
payload carries a live HostName. -/
def netwLiveHost : Netw :=
  { pageHttps := .ok ["TRACKID=t9; Path=/"], pageHttp := .ok [],
    loginHttps := .ok { status := 200, xsrfToken := none,
                        setCookies := ["sess=2; HttpOnly"] },
    loginHttp := .ok { status := 200, xsrfToken := none, setCookies := [] },
    fetch := fun _ e =>
      if e = "/Device/DeviceInfo" then none
      else if e = "/Device/NetworkAdapters" then
        some (.obj [("NetworkAdapters", .obj [("HostName", .str "live-host")])])
      else some (.obj [("Data", .num 1)]),
    identifyPost := fun _ => .ok 200 }

/-- A device whose NetworkAdapters payload carries the hostname old-host and
that otherwise authenticates normally. -/
def netwOldHost : Netw :=
  { pageHttps := .ok ["TRACKID=u4; Path=/"], pageHttp := .ok [],
    loginHttps := .ok { status := 200, xsrfToken := none,
                        setCookies := ["sess=7; HttpOnly"] },
    loginHttp := .ok { status := 200, xsrfToken := none, setCookies := [] },
    fetch := fun _ e =>
      if e = "/Device/NetworkAdapters" then
        some (.obj [("NetworkAdapters", .obj [("HostName", .str "old-host")])])
      else none,
    identifyPost := fun _ => .ok 200 }

/-- A device that authenticates and accepts the identify POST with 200. -/
def netwIdentifyOk : Netw :=
  { pageHttps := .ok ["TRACKID=i1; Path=/"], pageHttp := .ok [],
    loginHttps := .ok { status := 200, xsrfToken := some "xs",
                        setCookies := ["c=1"] },
    loginHttp := .ok { status := 200, xsrfToken := none, setCookies := [] },
    fetch := fun _ _ => none, identifyPost := fun _ => .ok 200 }

/-- A responses dictionary with every entry absent. -/
def respsNone : String → Option JValue := fun _ => none

/-- A response wrapping where Device.DeviceInfo is present but falsy while
the sibling DeviceInfo field carries data. -/
def shapeMismatch : Option JValue :=
  some (.obj [("Device", .obj [("DeviceInfo", .bool false)]),
              ("DeviceInfo", .str "live")])

/-- Service state left by a connect attempt the device rejected. -/
def stFailedConnect : ConnState :=
  (connectToDevice emptyConnState "10.0.0.5"
    { username := "admin", password := "admin" } none 5
    (.ok { success := false, error := some "authentication rejected" })).1

/-- Invariant of the dedupe fold: after consuming the candidates p, the map
m stores, under each address, an already-seen candidate of that address with
a maximal last-seen timestamp; keys are distinct and consistent with the
stored records, and every consumed candidate's address is covered. -/
def DedupInv (p : List NVXDevice) (m : List (String × NVXDevice)) : Prop :=
  (∀ kv ∈ m, (kv.2).ipAddress = kv.1) ∧
  (m.map Prod.fst).Nodup ∧
  (∀ kv ∈ m, kv.2 ∈ p ∧
    ∀ c ∈ p, c.ipAddress = kv.1 → c.lastSeen ≤ (kv.2).lastSeen) ∧
  (∀ c ∈ p, ∃ kv ∈ m, kv.1 = c.ipAddress)

/-! ### Helper lemmas about the map model -/

theorem aget_none_forall {α : Type} {m : List (String × α)} {k : String}
    (h : aget m k = none) : ∀ x : α, (k, x) ∉ m := by
  induction m with
  | nil => simp
  | cons kv rest ih =>
      obtain ⟨k', v'⟩ := kv
      by_cases hk : k' = k
      · subst hk; simp [aget] at h
      · simp [aget, hk] at h
        intro x hx
        rcases List.mem_cons.mp hx with h1 | h1
        · exact hk (congrArg Prod.fst h1).symm
        · exact ih h x h1

theorem not_mem_keys_of_aget_none {α : Type} {m : List (String × α)}
    {k : String} (h : aget m k = none) : k ∉ m.map Prod.fst := by
  intro hmem
  obtain ⟨kv, hkv, hfst⟩ := List.mem_map.mp hmem
  exact aget_none_forall h kv.2 (by rw [← hfst, Prod.mk.eta]; exact hkv)

theorem aget_eq_some_mem {α : Type} {m : List (String × α)} {k : String}
    {v : α} (h : aget m k = some v) : (k, v) ∈ m := by
  induction m with
  | nil => simp [aget] at h
  | cons kv rest ih =>
      obtain ⟨k', v'⟩ := kv
      by_cases hk : k' = k
      · subst hk
        simp [aget] at h
        simp [h]
      · simp [aget, hk] at h
        exact List.mem_cons_of_mem _ (ih h)

theorem aset_eq_append {α : Type} {m : List (String × α)} {k : String}
    (v : α) (h : aget m k = none) : aset m k v = m ++ [(k, v)] := by
  induction m with
  | nil => simp [aset]
  | cons kv rest ih =>
      obtain ⟨k', v'⟩ := kv
      by_cases hk : k' = k
      · subst hk; simp [aget] at h
      · simp [aget, hk] at h
        simp [aset, hk, ih h]

theorem keys_aset_of_some {α : Type} {m : List (String × α)} {k : String}
    {e : α} (v : α) (h : aget m k = some e) :
    (aset m k v).map Prod.fst = m.map Prod.fst := by
  induction m with
  | nil => simp [aget] at h
  | cons kv rest ih =>
      obtain ⟨k', v'⟩ := kv
      by_cases hk : k' = k
      · subst hk; simp [aset]
      · simp [aget, hk] at h
        simp [aset, hk, ih h]

theorem self_mem_aset {α : Type} (m : List (String × α)) (k : String)
    (v : α) : (k, v) ∈ aset m k v := by
  induction m with
  | nil => simp [aset]
  | cons kv rest ih =>
      obtain ⟨k', v'⟩ := kv
      by_cases hk : k' = k
      · simp [aset, hk]
      · simp only [aset, if_neg hk]
        exact List.mem_cons_of_mem _ ih

theorem mem_aset_of_mem {α : Type} {m : List (String × α)} {kv : String × α}
    (k : String) (v : α) (h : kv ∈ m) (hne : kv.1 ≠ k) : kv ∈ aset m k v := by
  induction m with
  | nil => simp at h
  | cons kv' rest ih =>
      obtain ⟨k', v'⟩ := kv'
      by_cases hk : k' = k
      · subst hk
        simp only [aset, if_pos rfl]
        rcases List.mem_cons.mp h with h1 | h1
        · exact absurd (congrArg Prod.fst h1) hne
        · exact List.mem_cons_of_mem _ h1
      · simp only [aset, if_neg hk]
        rcases List.mem_cons.mp h with h1 | h1
        · exact h1 ▸ List.mem_cons_self _ _
        · exact List.mem_cons_of_mem _ (ih h1)

theorem mem_of_mem_aset {α : Type} {m : List (String × α)} {kv : String × α}
    {k : String} {v : α} (hnd : (m.map Prod.fst).Nodup) (h : kv ∈ aset m k v) :
    kv = (k, v) ∨ (kv ∈ m ∧ kv.1 ≠ k) := by
  induction m with
  | nil =>
      simp [aset] at h
      exact Or.inl h
  | cons kv' rest ih =>
      obtain ⟨k', v'⟩ := kv'
      simp at hnd
      by_cases hk : k' = k
      · subst hk
        simp only [aset, if_pos rfl] at h
        rcases List.mem_cons.mp h with h1 | h1
        · exact Or.inl h1
        · refine Or.inr ⟨List.mem_cons_of_mem _ h1, fun hkk => ?_⟩
          exact hnd.1 kv.2 (by rw [← hkk, Prod.mk.eta]; exact h1)
      · simp only [aset, if_neg hk] at h
        rcases List.mem_cons.mp h with h1 | h1
        · refine Or.inr ⟨h1 ▸ List.mem_cons_self _ _, ?_⟩
          rw [h1]
          exact hk
        · rcases ih hnd.2 h1 with h2 | ⟨h2, h3⟩
          · exact Or.inl h2
          · exact Or.inr ⟨List.mem_cons_of_mem _ h2, h3⟩

theorem aget_of_mem_nodup {α : Type} {m : List (String × α)}
    (hnd : (m.map Prod.fst).Nodup) {k : String} {x : α} (h : (k, x) ∈ m) :
    aget m k = some x := by
  induction m with
  | nil => simp at h
  | cons kv' rest ih =>
      obtain ⟨k', v'⟩ := kv'
      simp at hnd
      rcases List.mem_cons.mp h with h1 | h1
      · have hk : k = k' := congrArg Prod.fst h1
        have hv : x = v' := congrArg Prod.snd h1
        subst hk
        simp [aget, hv]
      · by_cases hk : k' = k
        · subst hk
          exact absurd h1 (hnd.1 x)
        · simp [aget, hk]
          exact ih hnd.2 h1

theorem aget_aset {α : Type} (m : List (String × α)) (k b : String) (v : α) :
    aget (aset m k v) b = if b = k then some v else aget m b := by
  induction m with
  | nil =>
      by_cases h : b = k
      · subst h; simp [aset, aget]
      · have h' : ¬ k = b := fun hh => h hh.symm
        simp [aset, aget, h, h']
  | cons kv rest ih =>
      obtain ⟨k', v'⟩ := kv
      by_cases hk : k' = k
      · subst hk
        by_cases hb : b = k'
        · subst hb; simp [aset, aget]
        · have hb' : ¬ k' = b := fun hh => hb hh.symm
          simp [aset, aget, hb, hb']
      · by_cases hb : b = k'
        · subst hb
          simp [aset, aget, hk]
        · have hb' : ¬ k' = b := fun hh => hb hh.symm
          simp [aset, aget, hk, hb', ih]

theorem aget_adel {α : Type} (m : List (String × α)) (k b : String) :
    aget (adel m k) b = if b = k then none else aget m b := by
  induction m with
  | nil => simp [adel, aget]
  | cons kv rest ih =>
      obtain ⟨k', v'⟩ := kv
      by_cases hk : k' = k
      · subst hk
        rw [show adel ((k', v') :: rest) k' = adel rest k' from by simp [adel],
          ih]
        by_cases hb : b = k'
        · simp [hb]
        · have hb' : ¬ k' = b := fun hh => hb hh.symm
          simp [aget, hb, hb']
      · simp only [adel, if_neg hk]
        by_cases hb : b = k'
        · subst hb
          simp [aget, hk]
        · have hb' : ¬ k' = b := fun hh => hb hh.symm
          simp [aget, hb', ih]

theorem aset_aset_same {α : Type} (m : List (String × α)) (k : String)
    (v : α) : aset (aset m k v) k v = aset m k v := by
  induction m with
  | nil => simp [aset]
  | cons kv rest ih =>
      obtain ⟨k', v'⟩ := kv
      by_cases hk : k' = k
      · simp [aset, hk]
      · simp [aset, hk, ih]

theorem adel_adel {α : Type} (m : List (String × α)) (k : String) :
    adel (adel m k) k = adel m k := by
  induction m with
  | nil => simp [adel]
  | cons kv rest ih =>
      obtain ⟨k', v'⟩ := kv
      by_cases hk : k' = k
      · simp [adel, hk, ih]
      · simp [adel, hk, ih]

/-! ### Helper lemmas about JS truthiness chains -/

theorem jsOr_of_falsy (a b : Option JValue) (h : truthyO a = false) :
    jsOr a b = b := by
  simp [jsOr, h]

theorem jsOrV_of_falsy (a : Option JValue) (d : JValue)
    (h : truthyO a = false) : jsOrV a d = d := by
  simp [jsOrV, h]

theorem dedupInv_step {p : List NVXDevice} {m : List (String × NVXDevice)}
    (d : NVXDevice) (h : DedupInv p m) : DedupInv (p ++ [d]) (dedupStep m d) := by
  obtain ⟨hkey, hnd, hmax, hcov⟩ := h
  cases hget : aget m d.ipAddress with
  | none =>
      simp only [dedupStep, hget]
      rw [aset_eq_append d hget]
      refine ⟨?_, ?_, ?_, ?_⟩
      · intro kv hkv
        rcases List.mem_append.mp hkv with h1 | h1
        · exact hkey kv h1
        · simp at h1
          simp [h1]
      · rw [List.map_append]
        simp only [List.map_cons, List.map_nil]
        rw [List.nodup_append]
        refine ⟨hnd, List.nodup_singleton _, ?_⟩
        intro a ha hb
        simp at hb
        subst hb
        exact not_mem_keys_of_aget_none hget ha
      · intro kv hkv
        rcases List.mem_append.mp hkv with h1 | h1
        · obtain ⟨hin, hmx⟩ := hmax kv h1
          refine ⟨List.mem_append_left _ hin, ?_⟩
          intro c hc hcip
          rcases List.mem_append.mp hc with h2 | h2
          · exact hmx c h2 hcip
          · simp at h2
            subst h2
            exfalso
            apply not_mem_keys_of_aget_none hget
            rw [hcip]
            exact List.mem_map_of_mem Prod.fst h1
        · simp at h1
          subst h1
          constructor
          · exact List.mem_append_right _ (by simp)
          · intro c hc hcip
            simp at hcip
            rcases List.mem_append.mp hc with h2 | h2
            · exfalso
              obtain ⟨kv', hkv', hk'⟩ := hcov c h2
              apply not_mem_keys_of_aget_none hget
              have hkd : kv'.1 = d.ipAddress := by rw [hk', hcip]
              rw [← hkd]
              exact List.mem_map_of_mem Prod.fst hkv'
            · simp at h2
              subst h2
              simp
      · intro c hc
        rcases List.mem_append.mp hc with h2 | h2
        · obtain ⟨kv', hkv', hk⟩ := hcov c h2
          exact ⟨kv', List.mem_append_left _ hkv', hk⟩
        · simp at h2
          subst h2
          exact ⟨(c.ipAddress, c), List.mem_append_right _ (by simp), rfl⟩
  | some e =>
      simp only [dedupStep, hget]
      have hin : (d.ipAddress, e) ∈ m := aget_eq_some_mem hget
      by_cases hlt : e.lastSeen < d.lastSeen
      · rw [if_pos hlt]
        refine ⟨?_, ?_, ?_, ?_⟩
        · intro kv hkv
          rcases mem_of_mem_aset hnd hkv with h1 | ⟨h1, _⟩
          · simp [h1]
          · exact hkey kv h1
        · rw [keys_aset_of_some d hget]
          exact hnd
        · intro kv hkv
          rcases mem_of_mem_aset hnd hkv with h1 | ⟨h1, hne⟩
          · subst h1
            refine ⟨List.mem_append_right _ (by simp), ?_⟩
            intro c hc hcip
            simp at hcip
            rcases List.mem_append.mp hc with h2 | h2
            · exact le_trans ((hmax _ hin).2 c h2 hcip) (le_of_lt hlt)
            · simp at h2
              subst h2
              simp
          · obtain ⟨hinp, hmx⟩ := hmax kv h1
            refine ⟨List.mem_append_left _ hinp, ?_⟩
            intro c hc hcip
            rcases List.mem_append.mp hc with h2 | h2
            · exact hmx c h2 hcip
            · simp at h2
              subst h2
              exact absurd hcip.symm hne
        · intro c hc
          rcases List.mem_append.mp hc with h2 | h2
          · obtain ⟨kv', hkv', hk⟩ := hcov c h2
            by_cases hk' : kv'.1 = d.ipAddress
            · refine ⟨(d.ipAddress, d), self_mem_aset m _ d, ?_⟩
              simp [← hk', hk]
            · exact ⟨kv', mem_aset_of_mem _ d hkv' hk', hk⟩
          · simp at h2
            subst h2
            exact ⟨(c.ipAddress, c), self_mem_aset m _ c, rfl⟩
      · rw [if_neg hlt]
        refine ⟨hkey, hnd, ?_, ?_⟩
        · intro kv hkv
          obtain ⟨hinp, hmx⟩ := hmax kv hkv
          refine ⟨List.mem_append_left _ hinp, ?_⟩
          intro c hc hcip
          rcases List.mem_append.mp hc with h2 | h2
          · exact hmx c h2 hcip
          · simp at h2
            subst h2
            have h3 : aget m kv.1 = some kv.2 :=
              aget_of_mem_nodup hnd (by rw [Prod.mk.eta]; exact hkv)
            rw [← hcip, hget] at h3
            have h4 : e = kv.2 := by injection h3
            rw [← h4]
            exact not_lt.mp hlt
        · intro c hc
          rcases List.mem_append.mp hc with h2 | h2
          · exact hcov c h2
          · simp at h2
            subst h2
            exact ⟨(c.ipAddress, e), hin, rfl⟩

theorem dedupInv_foldl (ds : List NVXDevice) :
    ∀ (p : List NVXDevice) (m : List (String × NVXDevice)),
      DedupInv p m → DedupInv (p ++ ds) (ds.foldl dedupStep m) := by
  induction ds with
  | nil =>
      intro p m h
      simpa using h
  | cons d rest ih =>
      intro p m h
      have h2 := ih (p ++ [d]) (dedupStep m d) (dedupInv_step d h)
      simpa [List.append_assoc] using h2

/-- C1: the registry merge deduplicateDevices yields pairwise-distinct
addresses, each returned record is one of the candidates and carries the
maximal last-seen timestamp among the candidates of its address, and every
candidate address is represented in the output. -/
theorem dedup_merge_correct (ds : List NVXDevice) :
    (deduplicateDevices ds).Pairwise (fun x y => x.ipAddress ≠ y.ipAddress) ∧
    (∀ d ∈ deduplicateDevices ds, d ∈ ds ∧
      ∀ c ∈ ds, c.ipAddress = d.ipAddress → c.lastSeen ≤ d.lastSeen) ∧
    (∀ c ∈ ds, ∃ d ∈ deduplicateDevices ds, d.ipAddress = c.ipAddress) := by
  have hinv := dedupInv_foldl ds [] [] ⟨by simp, by simp, by simp, by simp⟩
  rw [List.nil_append] at hinv
  obtain ⟨hkey, hnd, hmax, hcov⟩ := hinv
  unfold deduplicateDevices
  refine ⟨?_, ?_, ?_⟩
  · rw [List.pairwise_map]
    rw [List.Nodup, List.pairwise_map] at hnd
    exact hnd.imp_of_mem (fun {a b} ha hb hab => by
      rw [hkey a ha, hkey b hb]; exact hab)
  · intro dd hd
    obtain ⟨kv, hkv, hsnd⟩ := List.mem_map.mp hd
    obtain ⟨hinp, hmx⟩ := hmax kv hkv
    subst hsnd
    exact ⟨hinp, fun c hc hcip => hmx c hc (hcip.trans (hkey kv hkv))⟩
  · intro c hc
    obtain ⟨kv, hkv, hk⟩ := hcov c hc
    refine ⟨kv.2, List.mem_map_of_mem Prod.snd hkv, ?_⟩
    rw [hkey kv hkv, hk]

/-- C1 witness: at the concrete duplicate-address candidate list ds0, the
fresher record devB is in the output, belongs to the input, and dominates
the timestamps of its address. -/
theorem dedup_merge_correct_witness :
    devB ∈ ds0 ∧ ∀ c ∈ ds0, c.ipAddress = devB.ipAddress →
      c.lastSeen ≤ devB.lastSeen :=
  (dedup_merge_correct ds0).2.1 devB (by decide)

/-- C10: disconnectDevice clears only the connection status, credentials and
certificate options of the given address; the cached device parameters are
untouched at every address, and the other maps are untouched at every other
address. -/
theorem disconnect_preserves_device_parameters (st : ConnState) (ip a : String) :
    (disconnectDevice st ip).deviceParameters = st.deviceParameters ∧
    getDeviceParameters (disconnectDevice st ip) a = getDeviceParameters st a ∧
    getCredentials (disconnectDevice st ip) a =
      (if a = ip then none else getCredentials st a) ∧
    getCertificateOptions (disconnectDevice st ip) a =
      (if a = ip then none else getCertificateOptions st a) := by
  refine ⟨rfl, rfl, ?_, ?_⟩
  · simp [getCredentials, disconnectDevice, aget_adel]
  · simp [getCertificateOptions, disconnectDevice, aget_adel]

/-- C9 amended: disconnectDevice is idempotent, and on an address whose
recorded status is the clean disconnected one with no stored credentials or
certificate options it is an observational no-op (after a failed connect the
stored certificate options and the recorded error are cleared, so the
original claim holds only for such clean addresses). -/
theorem disconnect_idempotent_and_clean_noop (st : ConnState) (ip : String) :
    disconnectDevice (disconnectDevice st ip) ip = disconnectDevice st ip ∧
    (getConnectionStatus st ip =
        { isConnected := false, lastConnected := none, error := none } →
      getCredentials st ip = none →
      getCertificateOptions st ip = none →
      getConnectionStatus (disconnectDevice st ip) ip =
          getConnectionStatus st ip ∧
        getCredentials (disconnectDevice st ip) ip = getCredentials st ip ∧
        getCertificateOptions (disconnectDevice st ip) ip =
          getCertificateOptions st ip) := by
  constructor
  · obtain ⟨cn, cr, dp, co⟩ := st
    simp [disconnectDevice, aset_aset_same, adel_adel]
  · intro h1 h2 h3
    refine ⟨?_, ?_, ?_⟩
    · rw [h1]
      simp [getConnectionStatus, disconnectDevice, aget_aset]
    · rw [h2]
      simp [getCredentials, disconnectDevice, aget_adel]
    · rw [h3]
      simp [getCertificateOptions, disconnectDevice, aget_adel]

/-- C9 witness: at the empty service state and a fresh address, disconnect
twice equals disconnect once and the observables are unchanged. -/
theorem disconnect_idempotent_and_clean_noop_witness :
    disconnectDevice (disconnectDevice emptyConnState "10.0.0.5") "10.0.0.5" =
      disconnectDevice emptyConnState "10.0.0.5" ∧
    (getConnectionStatus (disconnectDevice emptyConnState "10.0.0.5")
        "10.0.0.5" = getConnectionStatus emptyConnState "10.0.0.5" ∧
      getCredentials (disconnectDevice emptyConnState "10.0.0.5") "10.0.0.5" =
        getCredentials emptyConnState "10.0.0.5" ∧
      getCertificateOptions (disconnectDevice emptyConnState "10.0.0.5")
        "10.0.0.5" = getCertificateOptions emptyConnState "10.0.0.5") :=
  have h := disconnect_idempotent_and_clean_noop emptyConnState "10.0.0.5"
  ⟨h.1, h.2 rfl rfl rfl⟩

/-- C9 counterexample: after a rejected connect the address has no active
session, yet disconnect changes the observables: it drops the stored
certificate options and wipes the recorded error status. -/
theorem disconnect_not_noop_after_failed_connect :
    isDeviceConnected stFailedConnect "10.0.0.5" = false ∧
    getCertificateOptions stFailedConnect "10.0.0.5" =
      some { type := .anyCertificate, rejectUnauthorized := false } ∧
    getCertificateOptions (disconnectDevice stFailedConnect "10.0.0.5")
      "10.0.0.5" = none ∧
    getConnectionStatus (disconnectDevice stFailedConnect "10.0.0.5")
      "10.0.0.5" ≠ getConnectionStatus stFailedConnect "10.0.0.5" := by
  refine ⟨rfl, rfl, rfl, ?_⟩
  decide

/-- C6 counterexample: a response whose Device.DeviceInfo field is present
but falsy is resolved to the sibling DeviceInfo field by the source, while
the literal reading of the spec would pick the present Device.DeviceInfo
value. -/
theorem resolve_shape_presence_mismatch :
    oget (oget shapeMismatch "Device") "DeviceInfo" = some (.bool false) ∧
    resolveResource shapeMismatch "DeviceInfo" = .str "live" ∧
    resolveResourceClaim shapeMismatch "DeviceInfo" = .bool false :=
  ⟨rfl, rfl, rfl⟩

/-- C6 amended: for every response and sub-resource name, the source's
resolution equals the three-shape priority rule with presence read as JS
truthiness (Device.R first, then R, then the bare body, else an empty
object). -/
theorem resolve_shape_truthy_priority (resp : Option JValue) (res : String) :
    resolveResource resp res = resolveResourceTruthy resp res := by
  unfold resolveResource resolveResourceTruthy
  by_cases h1 : truthyO (oget (oget resp "Device") res)
  · simp [jsOrV, jsOr, h1]
  · by_cases h2 : truthyO (oget resp res)
    · simp [jsOrV, jsOr, h1, h2]
    · by_cases h3 : truthyO resp
      · simp [jsOrV, jsOr, h1, h2, h3]
      · simp [jsOrV, jsOr, h1, h2, h3]

/-- C7: the update-parameter handler is a placeholder: it issues no wire
call at all and reports success, so a subsequent import returns the
device's unchanged value (old-host) rather than the written one. -/
theorem update_parameter_placeholder_no_write :
    (updateParameterHandler "10.0.0.5" "hostname" (.str "new-host")).2 = [] ∧
    (updateParameterHandler "10.0.0.5" "hostname" (.str "new-host")).1.success
      = true ∧
    importedHostname (importParameters netwOldHost "10.0.0.5" 0 "r" "r").1 =
      some (.str "old-host") ∧
    JValue.str "old-host" ≠ JValue.str "new-host" := by
  refine ⟨rfl, rfl, rfl, ?_⟩
  simp

/-- C8 counterexample: against a device that accepts the identify POST, the
handler's result object carries the requested duration under the key
duration and has no effectiveDuration field at all. -/
theorem identify_result_lacks_effective_duration :
    ((identifyDevice netwIdentifyOk 30).1).getField "success" =
      some (.bool true) ∧
    ((identifyDevice netwIdentifyOk 30).1).getField "duration" =
      some (.num 30) ∧
    ((identifyDevice netwIdentifyOk 30).1).getField "effectiveDuration" =
      none :=
  ⟨rfl, rfl, rfl⟩

/-- C2 counterexample: when the login page answers but sets no TRACKID
cookie, the initial authentication has failed, yet the handler returns a
hard failure with no parameters and no synthetic flag instead of the
synthetic default set. -/
theorem import_missing_trackid_hard_failure :
    (importParameters netwNoCookie "10.0.0.5" 0 "r" "r").1.success = false ∧
    (importParameters netwNoCookie "10.0.0.5" 0 "r" "r").1.isMockData = false ∧
    (importParameters netwNoCookie "10.0.0.5" 0 "r" "r").1.parameters = none :=
  ⟨rfl, rfl, rfl⟩

/-- C2 amended: the synthetic (isMockData) fallback is returned exactly when
a thrown transport error escapes the handler (both tracking-cookie GETs
throw, or the tracking value was obtained and both login POSTs throw); a
missing TRACKID cookie in an answered page instead yields a hard failure
with no parameters and no synthetic flag. -/
theorem import_mock_fallback_policy (n : Netw) (ip : String) (now : Nat)
    (r1 r2 : String) :
    (∀ m1 m2, n.pageHttps = .error m1 → n.pageHttp = .error m2 →
      (importParameters n ip now r1 r2).1.success = true ∧
      (importParameters n ip now r1 r2).1.isMockData = true ∧
      (importParameters n ip now r1 r2).1.parameters =
        some (.mock (mockParameters ip now r1 r2))) ∧
    (∀ hs t m1 m2, n.pageHttps = .ok hs → extractTrackId hs = some t →
      n.loginHttps = .error m1 → n.loginHttp = .error m2 →
      (importParameters n ip now r1 r2).1.success = true ∧
      (importParameters n ip now r1 r2).1.isMockData = true ∧
      (importParameters n ip now r1 r2).1.parameters =
        some (.mock (mockParameters ip now r1 r2))) ∧
    (∀ hs, n.pageHttps = .ok hs → extractTrackId hs = none →
      (importParameters n ip now r1 r2).1.success = false ∧
      (importParameters n ip now r1 r2).1.isMockData = false ∧
      (importParameters n ip now r1 r2).1.parameters = none) := by
  refine ⟨?_, ?_, ?_⟩
  · intro m1 m2 h1 h2
    simp [importParameters, h1, h2, mockFallback]
  · intro hs t m1 m2 h1 h2 h3 h4
    simp [importParameters, h1, h2, importWithTrackId, h3, h4, mockFallback]
  · intro hs h1 h2
    simp [importParameters, h1, h2, importWithTrackId]

/-- C2 witness: both page GETs throw at the concrete device, and the import
returns the synthetic default set with the flag raised. -/
theorem import_mock_fallback_policy_witness :
    (importParameters netwUnreachable "10.0.0.5" 11 "ab" "cd").1.success
      = true ∧
    (importParameters netwUnreachable "10.0.0.5" 11 "ab" "cd").1.isMockData
      = true ∧
    (importParameters netwUnreachable "10.0.0.5" 11 "ab" "cd").1.parameters =
      some (.mock (mockParameters "10.0.0.5" 11 "ab" "cd")) :=
  (import_mock_fallback_policy netwUnreachable "10.0.0.5" 11 "ab" "cd").1
    "connect ETIMEDOUT" "connect ECONNREFUSED" rfl rfl

/-- C3: at a device where the secure page GET fails, the insecure retry
succeeds, and the secure login POST then succeeds, the session mixes
transports: an insecure call was made, yet every post-login call (the
sub-resource GETs and the logout) goes over the secure transport, because
the step-1 fallback does not record the sticky scheme decision. -/
theorem import_scheme_not_sticky :
    (importParameters netwMixedScheme "10.0.0.5" 0 "r" "r").1.success = true ∧
    (∃ c ∈ (importParameters netwMixedScheme "10.0.0.5" 0 "r" "r").2,
      c.secure = false ∧ c.path = "/userlogin.html") ∧
    (∀ c ∈ (importParameters netwMixedScheme "10.0.0.5" 0 "r" "r").2,
      c.path ≠ "/userlogin.html" → c.secure = true) := by
  refine ⟨rfl, ?_, ?_⟩
  · decide
  · decide

/-- C5 counterexample: DeviceInfo fails while the rest of the battery
answers, yet the returned hostname is the live NetworkAdapters value, not
the fallback default, because the hostname chain consults NetworkAdapters
before DeviceInfo. -/
theorem import_hostname_live_when_deviceinfo_fails :
    netwLiveHost.fetch true "/Device/DeviceInfo" = none ∧
    (importParameters netwLiveHost "10.0.0.5" 0 "r" "r").1.success = true ∧
    (importParameters netwLiveHost "10.0.0.5" 0 "r" "r").1.isMockData
      = false ∧
    importedHostname (importParameters netwLiveHost "10.0.0.5" 0 "r" "r").1 =
      some (.str "live-host") ∧
    JValue.str "live-host" ≠ JValue.str "Unknown" := by
  refine ⟨rfl, rfl, rfl, rfl, ?_⟩
  simp

/-- C5 amended: when the initial authentication succeeds over the secure
transport, a failing DeviceInfo sub-resource does not abort the import: the
result is a successful, non-synthetic live parameter set whose responses
dictionary has no DeviceInfo entry; and in the merged object the hostname
reaches its literal fallback default exactly when the remaining sources of
its chain (NetworkAdapters HostName, primary adapter Name) are not truthy
either. -/
theorem import_partial_failure_nonfatal (n : Netw) (ip : String) (now : Nat)
    (r1 r2 : String) (hs : List String) (t : String) (lr : LoginResp)
    (h1 : n.pageHttps = .ok hs) (h2 : extractTrackId hs = some t)
    (h3 : n.loginHttps = .ok lr) (h4 : lr.status = 200)
    (h5 : n.fetch true "/Device/DeviceInfo" = none) :
    ((importParameters n ip now r1 r2).1.success = true ∧
      (importParameters n ip now r1 r2).1.isMockData = false ∧
      (importParameters n ip now r1 r2).1.parameters =
        some (.real (buildParameters (respsOf n true) ip now)) ∧
      respsOf n true "/Device/DeviceInfo" = none) ∧
    (∀ resps : String → Option JValue, resps "/Device/DeviceInfo" = none →
      truthyO (vget (resolveResource (resps "/Device/NetworkAdapters")
        "NetworkAdapters") "HostName") = false →
      truthyO (vget (primaryAdapterOf (resolveResource
        (resps "/Device/NetworkAdapters") "NetworkAdapters")) "Name")
        = false →
      (buildParameters resps ip now).hostname = .str "Unknown") := by
  constructor
  · refine ⟨?_, ?_, ?_, ?_⟩
    · simp [importParameters, h1, h2, importWithTrackId, h3,
        importAfterLogin, h4]
    · simp [importParameters, h1, h2, importWithTrackId, h3,
        importAfterLogin, h4]
    · simp [importParameters, h1, h2, importWithTrackId, h3,
        importAfterLogin, h4]
    · simp only [respsOf, h5]
      split <;> rfl
  · intro resps hA hB hC
    have hdi : resolveResource (resps "/Device/DeviceInfo") "DeviceInfo" =
        JValue.obj [] := by rw [hA]; rfl
    have hDIH : truthyO (vget (JValue.obj []) "HostName") = false := rfl
    have hDIN : truthyO (vget (JValue.obj []) "Name") = false := rfl
    simp only [buildParameters, hdi]
    rw [jsOr_of_falsy _ _ hB, jsOr_of_falsy _ _ hDIH, jsOr_of_falsy _ _ hDIN,
      jsOrV_of_falsy _ _ hC]

/-- C5 witness: at the concrete device with a failing DeviceInfo fetch
the import succeeds non-synthetically, and with every source absent the
hostname is the literal default. -/
theorem import_partial_failure_nonfatal_witness :
    ((importParameters netwLiveHost "10.0.0.5" 3 "q" "w").1.success = true ∧
      (importParameters netwLiveHost "10.0.0.5" 3 "q" "w").1.isMockData
        = false ∧
      (importParameters netwLiveHost "10.0.0.5" 3 "q" "w").1.parameters =
        some (.real (buildParameters (respsOf netwLiveHost true)
          "10.0.0.5" 3)) ∧
      respsOf netwLiveHost true "/Device/DeviceInfo" = none) ∧
    (buildParameters respsNone "10.0.0.5" 3).hostname = .str "Unknown" :=
  have h := import_partial_failure_nonfatal netwLiveHost "10.0.0.5" 3 "q" "w"
    ["TRACKID=t9; Path=/"] "t9"
    { status := 200, xsrfToken := none, setCookies := ["sess=2; HttpOnly"] }
    rfl rfl rfl rfl rfl
  ⟨h.1, h.2 respsNone rfl rfl rfl⟩

theorem identifyAfterLogin_no_stop (n : Netw) (d : Int) (u : Bool)
    (resp : LoginResp) (tr : List Call)
    (htr : ∀ c ∈ tr, isStopCall c = false) :
    ∀ c ∈ (identifyAfterLogin n d u resp tr).2, isStopCall c = false := by
  intro c hc
  unfold identifyAfterLogin at hc
  split at hc
  · exact htr c hc
  · split at hc
    · split at hc
      · rcases List.mem_append.mp hc with h1 | h1
        · exact htr c h1
        · simp at h1
          rcases h1 with h1 | h1 <;> (rw [h1]; rfl)
      · rcases List.mem_append.mp hc with h1 | h1
        · exact htr c h1
        · simp at h1
          rw [h1]; rfl
    · rcases List.mem_append.mp hc with h1 | h1
      · exact htr c h1
      · simp at h1
        rw [h1]; rfl

theorem identifyWithTrackId_no_stop (n : Netw) (d : Int) (tid : Option String)
    (tr : List Call) (htr : ∀ c ∈ tr, isStopCall c = false) :
    ∀ c ∈ (identifyWithTrackId n d tid tr).2, isStopCall c = false := by
  intro c hc
  unfold identifyWithTrackId at hc
  split at hc
  · exact htr c hc
  · split at hc
    · refine identifyAfterLogin_no_stop n d true _ _ ?_ c hc
      intro c' hc'
      rcases List.mem_append.mp hc' with h1 | h1
      · exact htr c' h1
      · simp at h1
        rw [h1]; rfl
    · split at hc
      · refine identifyAfterLogin_no_stop n d false _ _ ?_ c hc
        intro c' hc'
        rcases List.mem_append.mp hc' with h1 | h1
        · exact htr c' h1
        · simp at h1
          rcases h1 with h1 | h1 <;> (rw [h1]; rfl)
      · rcases List.mem_append.mp hc with h1 | h1
        · exact htr c h1
        · simp at h1
          rcases h1 with h1 | h1 <;> (rw [h1]; rfl)

theorem identifyDevice_no_stop (n : Netw) (d : Int) :
    ∀ c ∈ (identifyDevice n d).2, isStopCall c = false := by
  intro c hc
  unfold identifyDevice at hc
  split at hc
  · refine identifyWithTrackId_no_stop n d _ _ ?_ c hc
    intro c' hc'
    simp at hc'
    rw [hc']; rfl
  · split at hc
    · refine identifyWithTrackId_no_stop n d _ _ ?_ c hc
      intro c' hc'
      simp at hc'
      rcases hc' with h1 | h1 <;> (rw [h1]; rfl)
    · simp at hc
      rcases hc with h1 | h1 <;> (rw [h1]; rfl)

/-- C8 amended: the identify handler never issues a stop action on the wire
in any run; and against a device that accepts the start POST with 200, the
result object reports success with the requested duration under the key
duration (there is no effectiveDuration field). -/
theorem identify_success_duration_and_no_stop (n : Netw) (d : Int)
    (hs : List String) (t : String) (lr : LoginResp) :
    (∀ c ∈ (identifyDevice n d).2, isStopCall c = false) ∧
    (n.pageHttps = .ok hs → extractTrackId hs = some t →
      n.loginHttps = .ok lr → lr.status = 200 →
      n.identifyPost true = .ok 200 →
      ((identifyDevice n d).1).getField "success" = some (.bool true) ∧
      ((identifyDevice n d).1).getField "duration" = some (.num d) ∧
      ((identifyDevice n d).1).getField "effectiveDuration" = none) := by
  refine ⟨identifyDevice_no_stop n d, ?_⟩
  intro h1 h2 h3 h4 h5
  simp [identifyDevice, h1, h2, identifyWithTrackId, h3, identifyAfterLogin,
    h4, h5, JValue.getField, jlookup]

/-- C8 witness: at the concrete accepting device with duration 30, no stop
call is issued and the result carries success and duration 30. -/
theorem identify_success_duration_and_no_stop_witness :
    (∀ c ∈ (identifyDevice netwIdentifyOk 30).2, isStopCall c = false) ∧
    (((identifyDevice netwIdentifyOk 30).1).getField "success" =
        some (.bool true) ∧
      ((identifyDevice netwIdentifyOk 30).1).getField "duration" =
        some (.num 30) ∧
      ((identifyDevice netwIdentifyOk 30).1).getField "effectiveDuration" =
        none) :=
  have h := identify_success_duration_and_no_stop netwIdentifyOk 30
    ["TRACKID=i1; Path=/"] "i1"
    { status := 200, xsrfToken := some "xs", setCookies := ["c=1"] }
  ⟨h.1, h.2 rfl rfl rfl rfl rfl⟩

/-- C4: every device record the Crestron probe parser outputs has a model
string starting with the DM-NVX product-family prefix; candidates whose
extracted model lacks the prefix are dropped. -/
theorem crestron_output_model_has_nvx_prefix (now : Nat)
    (payload addr : String) (dev : CrestronDevice)
    (h : parseDeviceInfo now payload addr = some dev) :
    strStartsWith dev.model "DM-NVX" = true := by
  simp only [parseDeviceInfo] at h
  split at h
  · exact absurd h (by simp)
  · rename_i hcond
    simp at hcond
    injection h with h'
    rw [← h']
    simpa using hcond.2

/-- C4 witness: the sample payload parses to a device whose model carries
the DM-NVX prefix. -/
theorem crestron_output_model_has_nvx_prefix_witness :
    strStartsWith crestronSampleDevice.model "DM-NVX" = true :=
  crestron_output_model_has_nvx_prefix 42 crestronSamplePayload "10.0.0.9"
    crestronSampleDevice (by decide)
